import Mathlib

/-!
# Verification of the listing-checker core
Shallow embedding of `listing_checker_gui_v4_22.py` (money parsing, SKU codec,
price extraction, pricing decision engine, fetch-result handling, batch control),
with theorems checking the natural-language specification's claims.

Numeric model: Python `float` arithmetic is embedded over `ℚ`; Python's
`round(x, nd)` (round-half-to-even) is embedded as `roundTo` below.
-/

namespace ListingChecker

/-- Python `\s` / `str.strip()` whitespace on the characters this program
sees. -/
def isWsCh (c : Char) : Bool :=
  c = ' ' || c = '\t' || c = '\n' || c = '\r' || c = '\x0b' || c = '\x0c'

/-- `str.strip()`. -/
def pyStrip (l : List Char) : List Char :=
  ((l.dropWhile isWsCh).reverse.dropWhile isWsCh).reverse

/-- `str.replace(old, "")` for a single-character `old`. -/
def removeCh (c : Char) (l : List Char) : List Char :=
  l.filter (fun x => x ≠ c)

/-- `str.split(sep)` for a single-character separator (Python semantics:
`"".split("-") = [""]`, empty segments preserved). -/
def splitOnCh (sep : Char) : List Char → List (List Char)
  | [] => [[]]
  | c :: rest =>
    let r := splitOnCh sep rest
    if c = sep then [] :: r
    else (c :: r.headD []) :: r.tail

/-- `str.upper()` on the ASCII country/SKU-type strings this program
uppercases. -/
def pyUpper (s : String) : String := String.mk (s.toList.map Char.toUpper)

/-- `str.lower()`, likewise ASCII. -/
def pyLower (s : String) : String := String.mk (s.toList.map Char.toLower)

/-- Embeds `clean_text`: `str(v).replace("\r","").replace("\n","").strip()`
(the `None → ""` case is the empty string). -/
def clean_text (s : String) : String :=
  String.mk (pyStrip (removeCh '\n' (removeCh '\r' s.toList)))

/-- Digit characters `0`–`9` (Python `\d` restricted to ASCII; the source's
inputs are ASCII digits). -/
def isDigitCh (c : Char) : Bool := c.isDigit

/-- Fold a list of digit characters into the natural number they denote
(embeds `int(...)` on a string of digits). -/
def digitsToNat (l : List Char) : ℕ :=
  l.foldl (fun a c => a * 10 + (c.toNat - 48)) 0

/-- Decimal-literal parser embedding the `float(v)` call inside `try_float`:
optional sign, integer digits, optional `.` and fraction digits.
(Exotic `float()` forms — exponents, `inf`/`nan`, `_` separators — are not
produced by this program's inputs and are not modelled; they would parse as
`none` here.) -/
def parseDecimal (cs : List Char) : Option ℚ :=
  let (sign, cs) : ℚ × List Char :=
    match cs with
    | '-' :: t => (-1, t)
    | '+' :: t => (1, t)
    | _ => (1, cs)
  let intPart := cs.takeWhile isDigitCh
  let rest := cs.dropWhile isDigitCh
  match rest with
  | [] =>
    if intPart.isEmpty then none
    else some (sign * (digitsToNat intPart : ℚ))
  | '.' :: frac =>
    if frac.all isDigitCh && !(intPart.isEmpty && frac.isEmpty) then
      some (sign * ((digitsToNat intPart : ℚ) +
        (digitsToNat frac : ℚ) / (10 : ℚ) ^ frac.length))
    else none
  | _ => none

/-- Embeds `try_float`: clean, empty → `None`, strip thousands separators,
`float(...)` with `ValueError → None`. -/
def try_float (s : String) : Option ℚ :=
  let v := clean_text s
  if v = "" then none
  else parseDecimal (removeCh ',' v.toList)

/-- Embeds `parse_sku_cost_yen`: split the SKU on `-`; fewer than 2 segments
→ `None`; else `try_float(parts[1])`. -/
def parse_sku_cost_yen (sku : String) : Option ℚ :=
  let s := clean_text sku
  if s = "" then none
  else
    match (splitOnCh '-' s.toList).get? 1 with
    | none => none
    | some p => try_float (String.mk p)

/-- Embeds `parse_sku_shipping_yen`: returns `(ship_yen, mx_small_yen)`.
Fewer than 3 segments → `(0, 0)`; else ship = `parts[2] × 100` (0 if
unparseable); the MX small-packet value is `parts[3]` only for country `MX`
and SKU type `housou`/`kogata`, else 0. -/
def parse_sku_shipping_yen (sku country : String) : ℚ × ℚ :=
  let s := clean_text sku
  if s = "" then (0, 0)
  else
    let parts := splitOnCh '-' s.toList
    if parts.length < 3 then (0, 0)
    else
      let skuType := pyLower (String.mk ((parts.get? 0).getD []))
      let shipFactor := try_float (String.mk ((parts.get? 2).getD []))
      let shipYen := match shipFactor with
        | some f => f * 100
        | none => 0
      let mxSmallYen :=
        if pyUpper country = "MX" ∧ (skuType = "housou" ∨ skuType = "kogata")
            ∧ 4 ≤ parts.length then
          match try_float (String.mk ((parts.get? 3).getD [])) with
          | some v => v
          | none => 0
        else 0
      (shipYen, mxSmallYen)

/-- Embeds `COUNTRY_MULTIPLIER.get(country, 1.0)`. -/
def countryMultiplier (country : String) : ℚ :=
  if country = "US" then 1.692
  else if country = "CA" then 1.56
  else if country = "MX" then 2.463
  else 1

/-- Round-half-to-even to an integer (Python `round` on the embedded
rational value). -/
def roundHalfEven (x : ℚ) : ℤ :=
  let f := ⌊x⌋
  let r := x - f
  if r < 1/2 then f
  else if 1/2 < r then f + 1
  else if f % 2 = 0 then f else f + 1

/-- Embeds Python `round(x, nd)`. -/
def roundTo (nd : ℕ) (x : ℚ) : ℚ :=
  (roundHalfEven (x * 10 ^ nd) : ℚ) / 10 ^ nd

/-- Embeds `_yen_digit_len`: `len(str(int(abs(v))))`, with 0 counted as one
digit. -/
def yenDigitLen (v : ℚ) : ℕ :=
  let n := (⌊|v|⌋).natAbs
  if n = 0 then 1 else (Nat.toDigits 10 n).length

/-! ## `AmazonAutoFetcher._first_yen_in_text` (yen-price extraction)

The three regex passes of the source are embedded as explicit left-to-right
scans with the same leftmost-match / first-alternative / greedy-with-backtrack
semantics. Character classes: `\d` and `[A-Z0-9]` are ASCII in the inputs this
program feeds them; Python's Unicode `\w` is approximated by "ASCII
alphanumeric, `_`, or any non-ASCII character" (CJK text, the only non-ASCII
the page fragments contain, is `\w` in Python). -/

/-- Characters matched by `[\d,]` in the source's patterns. -/
def digitOrComma (c : Char) : Bool := c.isDigit || c = ','

/-- Python `\w` (see section comment for the non-ASCII approximation). -/
def isWordCh (c : Char) : Bool := c.isAlphanum || c = '_' || 128 ≤ c.toNat

theorem length_dropWhile_le (p : Char → Bool) (l : List Char) :
    (l.dropWhile p).length ≤ l.length := by
  induction l with
  | nil => simp [List.dropWhile]
  | cons c t ih =>
    simp only [List.dropWhile]
    cases p c <;> simp
    omega

/-- Pass 1, `re.search(r"[￥¥]\s*([\d,]+)", text)`: scan for a yen sign,
skip whitespace, take a nonempty run of `[\d,]`; on failure resume the scan
one character later. Returns the captured group. -/
def searchYenSym : List Char → Option (List Char)
  | [] => none
  | c :: rest =>
    if c = '¥' ∨ c = '￥' then
      let ds := (rest.dropWhile isWsCh).takeWhile digitOrComma
      if ds.isEmpty then searchYenSym rest else some ds
    else searchYenSym rest

/-- Pass 2, `re.search(r"([\d,]+)\s*円", text)`: at each position take the
maximal `[\d,]` run (greedy `[\d,]+`; backtracking into the run cannot help,
as the character after it is neither `\s` nor `円`), skip whitespace, require
`円`; on failure resume the scan one character later. Returns the captured
group. -/
def searchYenWord : List Char → Option (List Char)
  | [] => none
  | c :: rest =>
    if digitOrComma c then
      let run := (c :: rest).takeWhile digitOrComma
      let after := (c :: rest).dropWhile digitOrComma
      match after.dropWhile isWsCh with
      | '円' :: _ => some run
      | _ => searchYenWord rest
    else searchYenWord rest

/-- Greedy parse of `(?:,\d{3})+` repetitions: returns the consumed prefix
(4 characters per repetition) and the remainder. -/
def repsParse : List Char → List Char × List Char
  | c :: d1 :: d2 :: d3 :: rest =>
    if c = ',' && d1.isDigit && d2.isDigit && d3.isDigit then
      let pr := repsParse rest
      (c :: d1 :: d2 :: d3 :: pr.1, pr.2)
    else ([], c :: d1 :: d2 :: d3 :: rest)
  | l => ([], l)

/-- The trailing `\b` of pass 3 after a digit: next character non-word or
end of input. -/
def boundaryOkAfter : List Char → Bool
  | [] => true
  | c :: _ => !isWordCh c

/-- Try `(\d{1,3}(?:,\d{3})+|\d{3,})\b` at one position (the leading `\b`
is the caller's responsibility).  Alternative 1 can only succeed when the
whole digit run has length ≤ 3 (otherwise a digit follows where `,` is
required); if the trailing boundary fails after the greedy repetitions, the
regex backtracks exactly one repetition (the following character is then `,`,
a non-word character). -/
def tryMatchBare (l : List Char) : Option (List Char) :=
  let dRun := l.takeWhile isDigitCh
  let rest := l.dropWhile isDigitCh
  if dRun.isEmpty then none
  else
    let pr := repsParse rest
    if dRun.length ≤ 3 && !pr.1.isEmpty then
      -- alternative 1 applies
      if boundaryOkAfter pr.2 then some (dRun ++ pr.1)
      else if 8 ≤ pr.1.length then some (dRun ++ pr.1.take (pr.1.length - 4))
      else if 3 ≤ dRun.length && boundaryOkAfter rest then some dRun else none
    else if 3 ≤ dRun.length && boundaryOkAfter rest then some dRun else none

/-- Pass 3, `re.search(r"\b(\d{1,3}(?:,\d{3})+|\d{3,})\b", text)`: scan every
position, tracking whether the previous character was a word character (for
the leading `\b`). -/
def searchBare (prevWord : Bool) : List Char → Option (List Char)
  | [] => none
  | c :: rest =>
    if !prevWord && isWordCh c then
      match tryMatchBare (c :: rest) with
      | some r => some r
      | none => searchBare (isWordCh c) rest
    else searchBare (isWordCh c) rest

/-- Value of a captured `[\d,]` group: `int(group.replace(",", ""))`
(defined on groups containing at least one digit, as all accepted groups do;
a hypothetical all-comma group, on which the source would raise `ValueError`,
folds to 0 here and is never produced by the claims' inputs). -/
def groupVal (l : List Char) : ℕ :=
  digitsToNat (l.filter isDigitCh)

/-- Embeds `AmazonAutoFetcher._first_yen_in_text` with its strict pattern
priority and range guards. -/
def first_yen_in_text (text : String) : Option ℕ :=
  let cs := text.toList
  match searchYenSym cs with
  | some ds =>
    let v := groupVal ds
    if v ≤ 9999999 then some v else none
  | none =>
    match searchYenWord cs with
    | some ds =>
      let v := groupVal ds
      if v ≤ 9999999 then some v else none
    | none =>
      match searchBare false cs with
      | some run =>
        let v := groupVal run
        if 100 ≤ v ∧ v ≤ 9999999 then some v else none
      | none => none

/-! ## The decision engine `ListingCheckerApp._compute_record_for_row`

The worksheet cells of the row under evaluation, the wall clock
(`dt.datetime.now()`), and the fetch cache (`self.cur_asin`/`self.cur_debug`)
are the function's only interactions outside its parameters; they are passed
explicitly (`RowCells`, `Env`).  The nine tolerance-table UI variables read by
`_tol_rule_yen_for_country` are passed as their string contents (`TolVars`). -/

/-- The `CheckRecord` dataclass. -/
structure CheckRecord where
  timestamp : String
  country : String
  excel_row : ℤ
  asin : String
  sku : String
  listing_price_foreign : Option ℚ
  amazon_item_yen : Option ℚ
  amazon_page_ship_yen : Option ℚ
  amazon_total_yen : Option ℚ
  shipped_by_amazon : Option Bool
  is_used : Option Bool
  no_featured_offer : Option Bool
  sku_ship_yen : Option ℚ
  mx_small_yen : Option ℚ
  mx_small_ship_foreign : Option ℚ
  customs_fixed_yen : Option ℚ
  base_yen : Option ℚ
  fx_jpy_per_unit : Option ℚ
  multiplier : Option ℚ
  expected_price_foreign : Option ℚ
  diff_foreign : Option ℚ
  tol_yen : Option ℚ
  tol_foreign : Option ℚ
  tol_price_digits : Option ℤ
  sku_cost_yen : Option ℚ
  buy_diff_yen : Option ℚ
  delivery_days : Option ℤ
  decision : String
  reason : String
  debug : Option String
deriving DecidableEq, Repr

/-- The cells of the evaluated worksheet row that the function reads. -/
structure RowCells where
  sku : String
  price : String
  asin : String
deriving DecidableEq, Repr

/-- Ambient inputs: the wall-clock timestamp and the cached last-fetch
identity/trace (`self.cur_asin`, `self.cur_debug`). -/
structure Env where
  ts : String
  curAsin : String
  curDebug : String
deriving DecidableEq, Repr

/-- Contents of the nine per-country tolerance UI fields. -/
structure TolVars where
  us4 : String
  us5 : String
  us6 : String
  ca4 : String
  ca5 : String
  ca6 : String
  mx4 : String
  mx5 : String
  mx6 : String
deriving DecidableEq, Repr

/-- Embeds `_tol_rule_yen_for_country`: parse the country's three bucket
thresholds; any missing or negative value invalidates the whole rule. -/
def tol_rule_yen_for_country (tv : TolVars) (country : String) :
    Option (ℚ × ℚ × ℚ) :=
  let c := pyUpper (String.mk (pyStrip country.toList))
  let pick : Option (String × String × String) :=
    if c = "US" then some (tv.us4, tv.us5, tv.us6)
    else if c = "CA" then some (tv.ca4, tv.ca5, tv.ca6)
    else if c = "MX" then some (tv.mx4, tv.mx5, tv.mx6)
    else none
  match pick with
  | none => none
  | some (a, b, d) =>
    match try_float a, try_float b, try_float d with
    | some v4, some v5, some v6 =>
      if v4 < 0 ∨ v5 < 0 ∨ v6 < 0 then none else some (v4, v5, v6)
    | _, _, _ => none

/-- Embeds `_tol_yen_from_item_price`: bucket by digit count of the item
price (≥6 digits use the 6-digit rule), returning `(tol_yen, digits)`. -/
def tol_yen_from_item_price (tv : TolVars) (country : String)
    (itemPriceYen : Option ℚ) : Option ℚ × Option ℤ :=
  match itemPriceYen with
  | none => (none, none)
  | some v =>
    let digits := yenDigitLen v
    let bucket : ℕ := if 6 ≤ digits then 6 else if digits = 5 then 5 else 4
    match tol_rule_yen_for_country tv country with
    | none => (none, some (digits : ℤ))
    | some (t4, t5, t6) =>
      (some (if bucket = 6 then t6 else if bucket = 5 then t5 else t4),
       some (digits : ℤ))

/-- The item price used for the tolerance bucket (lines 1716–1722): the
fetched item price, else input total − fetched shipping, else input total. -/
def tolItemYenOf (amazonItemYen : Option ℤ) (amazonTotalYenInput : Option ℚ)
    (amazonPageShipYen : Option ℤ) : Option ℚ :=
  match amazonItemYen with
  | some i => some (i : ℚ)
  | none =>
    match amazonTotalYenInput, amazonPageShipYen with
    | some t, some s => some (t - (s : ℚ))
    | some t, none => some t
    | none, _ => none

/-- The marketplace total: the externally supplied total if present, else
fetched item + fetched shipping if both present (lines 1732–1735 and
1782–1787 compute the same value). -/
def totalYenOf (amazonTotalYenInput : Option ℚ) (amazonItemYen : Option ℤ)
    (amazonPageShipYen : Option ℤ) : Option ℚ :=
  match amazonTotalYenInput with
  | some t => some t
  | none =>
    match amazonItemYen, amazonPageShipYen with
    | some i, some s => some ((i : ℚ) + (s : ℚ))
    | _, _ => none

/-- `buy_base_yen` of the arithmetic stage: the fetched item price if known,
else total − fetched shipping (the shipping check guarantees a shipping value
there). -/
def buyBaseYenOf (t : ℚ) (amazonItemYen : Option ℤ) (shipS : ℤ) : ℚ :=
  match amazonItemYen with
  | some i => (i : ℚ)
  | none => t - (shipS : ℚ)

/-- Reference-only quantities computed before the decision chain
(lines 1730–1754) so that early-DELETE records still carry them. -/
structure PreCalc where
  baseYen : Option ℚ
  expected : Option ℚ
  diffForeign : Option ℚ
  msf : Option ℚ
  totalUsed : Option ℚ
deriving DecidableEq, Repr

/-- Embeds lines 1730–1754 (`amazon_total_yen_calc`, `buy_base_yen_calc` and
the provisional `base_yen`/`expected`/`diff_foreign`/`mx_small_ship_foreign`,
plus the provisional `amazon_total_yen_used`). -/
def preCalcOf (country : String) (fx multiplier skuShipTotalYen customsFixedYen
    mxSmallYen : ℚ) (listingPrice : Option ℚ) (amazonTotalYenInput : Option ℚ)
    (amazonItemYen amazonPageShipYen : Option ℤ) : PreCalc :=
  let amazonTotalYenCalc := totalYenOf amazonTotalYenInput amazonItemYen
    amazonPageShipYen
  let buyBaseYenCalc : Option ℚ :=
    match amazonItemYen with
    | some i => some (i : ℚ)
    | none =>
      match amazonTotalYenCalc, amazonPageShipYen with
      | some t, some s => some (t - (s : ℚ))
      | _, _ => none
  let totalUsed : Option ℚ :=
    match amazonTotalYenCalc with
    | some t => some t
    | none => amazonTotalYenInput
  match amazonTotalYenCalc with
  | some t =>
    if 0 < fx then
      let baseYen := t + skuShipTotalYen + customsFixedYen
      let expectedBase := baseYen / fx * multiplier
      let msfExp : Option ℚ × ℚ :=
        if pyUpper country = "MX" ∧ mxSmallYen ≠ 0 ∧ 0 < mxSmallYen then
          match buyBaseYenCalc with
          | some b =>
            let m := roundTo 4 ((b + mxSmallYen) * 1.35 / fx)
            (some m, roundTo 2 (expectedBase + m))
          | none => (none, roundTo 2 expectedBase)
        else (none, roundTo 2 expectedBase)
      let diff : Option ℚ :=
        match listingPrice with
        | some lp => some (roundTo 4 |lp - msfExp.2|)
        | none => none
      ⟨some baseYen, some msfExp.2, diff, msfExp.1, totalUsed⟩
    else ⟨none, none, none, none, totalUsed⟩
  | none => ⟨none, none, none, none, totalUsed⟩

/-- Outcome of the precedence chain together with every quantity it may
overwrite. -/
structure DecisionData where
  decision : String
  reason : String
  buyDiff : Option ℚ
  baseYen : Option ℚ
  msf : Option ℚ
  expected : Option ℚ
  diffForeign : Option ℚ
  totalUsed : Option ℚ
deriving DecidableEq, Repr

/-- Embeds the ordered precedence chain of `_compute_record_for_row`
(lines 1757–1841), first match winning; the final `else` block recomputes the
arithmetic quantities, overwriting the `PreCalc` values. -/
def decisionChain (country : String) (fx multiplier buyFail customsFixedYen
    skuShipTotalYen mxSmallYen : ℚ) (listingPrice skuCost : Option ℚ)
    (amazonTotalYenInput : Option ℚ) (amazonItemYen amazonPageShipYen : Option ℤ)
    (deliveryDaysInt : Option ℤ) (deliveryOverride : Bool)
    (tolYen tolForeign : Option ℚ) (isUsed : Option Bool)
    (noFeaturedOffer : Bool) (pre : PreCalc) : DecisionData :=
  if isUsed = some true then
    ⟨"DELETE", "USED_ITEM", none, pre.baseYen, pre.msf, pre.expected,
      pre.diffForeign, pre.totalUsed⟩
  else if noFeaturedOffer then
    ⟨"DELETE", "NO_FEATURED_OFFER", none, pre.baseYen, pre.msf, pre.expected,
      pre.diffForeign, pre.totalUsed⟩
  else
    match amazonPageShipYen with
    | none =>
      ⟨"DELETE", "SHIP_NOT_FOUND", none, pre.baseYen, pre.msf, pre.expected,
        pre.diffForeign, pre.totalUsed⟩
    | some shipS =>
      if !deliveryOverride && deliveryDaysInt.isNone then
        ⟨"DELETE", "DELIVERY_EMPTY", none, pre.baseYen, pre.msf, pre.expected,
          pre.diffForeign, pre.totalUsed⟩
      else if !deliveryOverride && (match deliveryDaysInt with
          | some d => decide (4 ≤ d)
          | none => false) then
        ⟨"DELETE", "DELIVERY_4P", none, pre.baseYen, pre.msf, pre.expected,
          pre.diffForeign, pre.totalUsed⟩
      else
        match tolYen, tolForeign with
        | some _, some tolF =>
          match totalYenOf amazonTotalYenInput amazonItemYen
              amazonPageShipYen with
          | none =>
            -- line 1789 overwrites `amazon_total_yen_used` with the (None)
            -- recomputed total before the AMAZON_TOTAL_EMPTY verdict
            ⟨"DELETE", "AMAZON_TOTAL_EMPTY", none, pre.baseYen, pre.msf,
              pre.expected, pre.diffForeign, none⟩
          | some t =>
            let buyBaseYen := buyBaseYenOf t amazonItemYen shipS
            let buyInfo : Bool × Bool × String × Option ℚ :=
              match skuCost with
              | none => (false, true, "SKU_COST_EMPTY", none)
              | some c =>
                let bd := roundTo 2 |buyBaseYen - c|
                if buyBaseYen < c then (true, true, "AMZ_BELOW_COST", some bd)
                else if bd ≤ buyFail then (false, true, "OK", some bd)
                else (false, false, "BUY_PRICE_MISMATCH", some bd)
            let cheaperOverride := buyInfo.1
            let buyOk := buyInfo.2.1
            let buyReason := buyInfo.2.2.1
            let buyDiff := buyInfo.2.2.2
            let baseYen := t + skuShipTotalYen + customsFixedYen
            let expectedBase := baseYen / fx * multiplier
            -- lines 1821–1825: the MX surcharge overwrites
            -- `mx_small_ship_foreign`; in the non-MX branch the PreCalc
            -- value (necessarily `none` here) is retained
            let msfExp : Option ℚ × ℚ :=
              if pyUpper country = "MX" ∧ mxSmallYen ≠ 0 ∧ 0 < mxSmallYen then
                let m := roundTo 4 ((buyBaseYen + mxSmallYen) * 1.35 / fx)
                (some m, roundTo 2 (expectedBase + m))
              else (pre.msf, roundTo 2 expectedBase)
            match listingPrice with
            | none =>
              ⟨"DELETE", "LISTING_PRICE_EMPTY", buyDiff, some baseYen,
                msfExp.1, some msfExp.2, pre.diffForeign, some t⟩
            | some lp =>
              let diffF := roundTo 4 |lp - msfExp.2|
              if cheaperOverride then
                ⟨"KEEP", "AMZ_BELOW_COST", buyDiff, some baseYen, msfExp.1,
                  some msfExp.2, some diffF, some t⟩
              else if !buyOk then
                ⟨"DELETE", buyReason, buyDiff, some baseYen, msfExp.1,
                  some msfExp.2, some diffF, some t⟩
              else if diffF ≤ tolF then
                ⟨"KEEP", "OK", buyDiff, some baseYen, msfExp.1,
                  some msfExp.2, some diffF, some t⟩
              else
                ⟨"DELETE", "PRICE_DIFF", buyDiff, some baseYen, msfExp.1,
                  some msfExp.2, some diffF, some t⟩
        | _, _ =>
          ⟨"DELETE", "TOL_RULE_INVALID", none, pre.baseYen, pre.msf,
            pre.expected, pre.diffForeign, pre.totalUsed⟩

/-- Embeds `ListingCheckerApp._compute_record_for_row` (lines 1677–1875):
derives the row quantities, runs the reference calculation and the precedence
chain, and assembles the `CheckRecord`. -/
def compute_record_for_row (env : Env) (tv : TolVars) (r : ℤ) (row : RowCells)
    (country : String) (fx buyFail customsFixedYen : ℚ)
    (amazonTotalYenInput : Option ℚ) (deliveryDaysInput : Option ℤ)
    (amazonItemYen amazonPageShipYen : Option ℤ)
    (shippedByAmazon isUsed : Option Bool)
    (noFeaturedOffer : Bool) : CheckRecord :=
  let sku := clean_text row.sku
  let asin := String.mk (removeCh ' ' (clean_text row.asin).toList)
  let listingPrice := try_float row.price
  let shipPair := parse_sku_shipping_yen sku country
  let shipYen := shipPair.1
  let mxSmallYen := shipPair.2
  let skuShipTotalYen := shipYen
  let skuCost := parse_sku_cost_yen sku
  let multiplier := countryMultiplier country
  let tolPair := tol_yen_from_item_price tv country
    (tolItemYenOf amazonItemYen amazonTotalYenInput amazonPageShipYen)
  let tolYen := tolPair.1
  let tolDigits := tolPair.2
  let tolForeign : Option ℚ :=
    match tolYen with
    | some ty => if 0 < fx then some (ty / fx * multiplier) else none
    | none => none
  let deliveryOverride := shippedByAmazon.getD false
  let pre := preCalcOf country fx multiplier skuShipTotalYen customsFixedYen
    mxSmallYen listingPrice amazonTotalYenInput amazonItemYen amazonPageShipYen
  let dd := decisionChain country fx multiplier buyFail customsFixedYen
    skuShipTotalYen mxSmallYen listingPrice skuCost amazonTotalYenInput
    amazonItemYen amazonPageShipYen deliveryDaysInput deliveryOverride
    tolYen tolForeign isUsed noFeaturedOffer pre
  { timestamp := env.ts
    country := country
    excel_row := r
    asin := asin
    sku := sku
    listing_price_foreign := listingPrice
    amazon_item_yen := amazonItemYen.map (fun i => (i : ℚ))
    amazon_page_ship_yen := amazonPageShipYen.map (fun s => (s : ℚ))
    amazon_total_yen := dd.totalUsed
    shipped_by_amazon := shippedByAmazon
    is_used := isUsed
    no_featured_offer := some noFeaturedOffer
    sku_ship_yen := some shipYen
    mx_small_yen := some mxSmallYen
    mx_small_ship_foreign := dd.msf
    customs_fixed_yen := some customsFixedYen
    base_yen := dd.baseYen
    fx_jpy_per_unit := some fx
    multiplier := some multiplier
    expected_price_foreign := dd.expected
    diff_foreign := dd.diffForeign
    tol_yen := tolYen
    tol_foreign := tolForeign
    tol_price_digits := tolDigits
    sku_cost_yen := skuCost
    buy_diff_yen := dd.buyDiff
    delivery_days := deliveryDaysInput
    decision := dd.decision
    reason := dd.reason
    debug := if env.curAsin = asin then some env.curDebug else none }

/-! ## `ListingCheckerApp._apply_fetch_result` (token staleness) -/

/-- The worker's result dictionary, after the `res.get(...)` defaulting of
lines 1615–1631. -/
structure FetchRes where
  token : ℤ
  asin : String
  ok : Bool
  item : Option ℤ
  ship : Option ℤ
  days : Option ℤ
  debug : String
  shippedByAmazon : Option Bool
  isUsed : Option Bool
  noFeaturedOffer : Bool
deriving DecidableEq, Repr

/-- Python `f"..."` rendering of an optional integer (`None` prints as
`"None"`). -/
def pyShowOptInt : Option ℤ → String
  | none => "None"
  | some v => toString v

/-- The state `_apply_fetch_result` reads or writes: the token, the in-flight
flag, the batch flag, the manual-fetch button, the cached fetch signals, the
two UI entry fields, the status label, and the scheduled
`_batch_finalize_one` call (modelled as a pending-call slot). -/
structure AppFetchState where
  autofillToken : ℤ
  fetchInflight : Bool
  batchRunning : Bool
  btnAutofillEnabled : Bool
  curAsin : String
  curItemYen : Option ℤ
  curPageShipYen : Option ℤ
  curDebug : String
  curShippedByAmazon : Option Bool
  curIsUsed : Option Bool
  curNoFeaturedOffer : Bool
  varAmazonYen : String
  varDelivery : String
  statusText : String
  pendingBatchFinalize : Option (Bool × String)
deriving DecidableEq, Repr

/-- Embeds `_apply_fetch_result` (lines 1614–1667): a result whose token
differs from the current token returns immediately; otherwise the cached
signals, UI fields, status and (in batch mode) the scheduled finalize call
are updated. -/
def apply_fetch_result (st : AppFetchState) (res : FetchRes) : AppFetchState :=
  if res.token ≠ st.autofillToken then st
  else
    let st1 := { st with
      fetchInflight := false
      btnAutofillEnabled := if !st.batchRunning then true
        else st.btnAutofillEnabled
      curAsin := res.asin
      curItemYen := res.item
      curPageShipYen := res.ship
      curDebug := res.debug
      curShippedByAmazon := res.shippedByAmazon
      curIsUsed := res.isUsed
      curNoFeaturedOffer := res.noFeaturedOffer }
    let total : Option ℤ :=
      match res.item, res.ship with
      | some i, some s => some (i + s)
      | _, _ => none
    let st2 := { st1 with
      varAmazonYen := match total with
        | some t => toString t
        | none => ""
      varDelivery := match res.days with
        | some d => toString d
        | none => "" }
    let shipMsg :=
      match res.ship with
      | none => "配送料=未取得（この行はDELETE判定）"
      | some s => "配送料=" ++ toString s
    let st3 := { st2 with
      statusText :=
        if !res.ok && total.isNone && res.days.isNone then
          "自動取得失敗: " ++ res.debug
        else
          "自動取得: 商品=" ++ pyShowOptInt res.item ++ ", " ++ shipMsg ++
          ", 合計=" ++ pyShowOptInt total ++ ", 配送日数=" ++
          pyShowOptInt res.days ++ " / " ++ res.debug }
    if st3.batchRunning then
      { st3 with pendingBatchFinalize := some (res.ok, res.debug) }
    else st3

/-! ## Batch control (`run_random_batch`, `_batch_finalize_one`) -/

/-- Embeds `ASIN_RE`, `^[A-Z0-9]{10}$`. -/
def asinShaped (s : String) : Bool :=
  s.length = 10 && s.toList.all (fun c => c.isUpper || c.isDigit)

/-- The eligible batch rows of `run_random_batch` (lines 2101–2105): those
whose cleaned, space-stripped ASIN cell matches `ASIN_RE`. -/
def eligibleRows (asinCells : List String) : List String :=
  asinCells.filter
    (fun a => asinShaped (String.mk (removeCh ' ' (clean_text a).toList)))

/-- The sample size of `run_random_batch` (line 2111):
`min(target, len(eligible))`. -/
def batchSampleSize (target : ℕ) (asinCells : List String) : ℕ :=
  min target (eligibleRows asinCells).length

/-- The `CheckRecord(...)` constructor call of the fetch-failure branch of
`_batch_finalize_one` (lines 2183–2218) omits the required dataclass field
`no_featured_offer`, so the call raises `TypeError` instead of producing a
record; the surrounding `try`/`except Exception: pass` swallows the error.
The failed construction is embedded as `none`. -/
def batchSkipRecordConstruction : Option CheckRecord := none

/-- The slice of batch state that `_batch_finalize_one` touches. -/
structure BatchState where
  batchRunning : Bool
  records : List CheckRecord
  batchPos : ℕ
  statusText : String
deriving DecidableEq, Repr

/-- Embeds `_batch_finalize_one` (lines 2165–2250).  `evalRec` stands for the
record that `_evaluate_current_row` appends on the success path; on the
failure path the swallowed `TypeError` (see `batchSkipRecordConstruction`)
leaves `records` unchanged. -/
def batch_finalize_one (st : BatchState) (fetchOk : Bool) (debug : String)
    (evalRec : CheckRecord) : BatchState :=
  if !st.batchRunning then st
  else if !fetchOk then
    { st with
      records := match batchSkipRecordConstruction with
        | some skipRec => st.records ++ [skipRec]
        | none => st.records
      statusText := "自動取得失敗のためスキップ: " ++ debug
      batchPos := st.batchPos + 1 }
  else
    { st with
      records := st.records ++ [evalRec]
      batchPos := st.batchPos + 1 }

/-! ## Claim theorems -/

theorem get?_eq_none_of_length_lt {α : Type} (l : List α) (n : ℕ)
    (h : l.length ≤ n) : l.get? n = none :=
  List.get?_eq_none.mpr h

unseal Rat.add Rat.mul Rat.sub Rat.inv Rat.ofScientific in
/-- **C5** The product-identifier decoder is total and deterministic (a Lean
function; absent segments degrade to `none` cost and 0 shipping), and
`decode("housou-1500-8-28")` yields cost 1500, shipping 800 (= segment 3
× 100) and small-packet value 28 for country MX but 0 for country US. -/
theorem sku_codec_decode :
    parse_sku_cost_yen "housou-1500-8-28" = some 1500 ∧
    parse_sku_shipping_yen "housou-1500-8-28" "MX" = (800, 28) ∧
    parse_sku_shipping_yen "housou-1500-8-28" "US" = (800, 0) ∧
    (∀ sku : String, (splitOnCh '-' (clean_text sku).toList).length < 2 →
      parse_sku_cost_yen sku = none) ∧
    (∀ sku country : String,
      (splitOnCh '-' (clean_text sku).toList).length < 3 →
      parse_sku_shipping_yen sku country = (0, 0)) := by
  refine ⟨by decide, by decide, by decide, ?_, ?_⟩
  · intro sku h
    unfold parse_sku_cost_yen
    by_cases he : clean_text sku = ""
    · simp [he]
    · simp only [he, if_false]
      rw [get?_eq_none_of_length_lt _ _ (by omega)]
  · intro sku country h
    unfold parse_sku_shipping_yen
    by_cases he : clean_text sku = ""
    · simp [he]
    · simp only [he, if_false]
      rw [if_pos h]

/-- Witness for C5: the degradation clauses applied at concrete malformed
identifiers. -/
theorem sku_codec_decode_witness :
    parse_sku_cost_yen "housou" = none ∧
    parse_sku_shipping_yen "housou-1500" "MX" = (0, 0) :=
  ⟨sku_codec_decode.2.2.2.1 "housou" (by decide),
   sku_codec_decode.2.2.2.2 "housou-1500" "MX" (by decide)⟩

/-- **C8** A fetch result delivered with a token different from the
requester's current token is dropped: the handler returns with the state —
cached signals, UI fields, status, pending batch step — completely
unchanged. -/
theorem stale_token_drops_result (st : AppFetchState) (res : FetchRes)
    (h : res.token ≠ st.autofillToken) :
    apply_fetch_result st res = st := by
  unfold apply_fetch_result
  rw [if_pos h]

/-- Witness for C8: a concrete stale result (token 1 against current
token 2) leaves a concrete state untouched. -/
theorem stale_token_drops_result_witness :
    (1 : ℤ) ≠ (2 : ℤ) ∧
    apply_fetch_result
      ⟨2, true, false, false, "B000000000", some 5, some 3, "d", none, none,
        false, "", "", "s", none⟩
      ⟨1, "B111111111", true, some 9, some 9, some 9, "x", some true,
        some true, true⟩ =
      ⟨2, true, false, false, "B000000000", some 5, some 3, "d", none, none,
        false, "", "", "s", none⟩ :=
  ⟨by decide,
   stale_token_drops_result
     ⟨2, true, false, false, "B000000000", some 5, some 3, "d", none, none,
       false, "", "", "s", none⟩
     ⟨1, "B111111111", true, some 9, some 9, some 9, "x", some true,
       some true, true⟩ (by decide)⟩

/-- **C9, counterexample** `_compute_record_for_row` is not byte-identical
across two runs on identical row/signals/configuration inputs: it reads the
wall clock (`dt.datetime.now()`), so two runs at different instants differ
in the `timestamp` field. -/
theorem decide_reruns_not_bytewise_identical :
    compute_record_for_row ⟨"2024-01-01T00:00:00", "", ""⟩
      ⟨"10", "10", "10", "10", "10", "10", "10", "10", "10"⟩ 2
      ⟨"housou-1500-8", "10", "B000000000"⟩ "US" 100 500 150 none (some 1)
      (some 1000) (some 0) none none false ≠
    compute_record_for_row ⟨"2024-01-01T00:00:01", "", ""⟩
      ⟨"10", "10", "10", "10", "10", "10", "10", "10", "10"⟩ 2
      ⟨"housou-1500-8", "10", "B000000000"⟩ "US" 100 500 150 none (some 1)
      (some 1000) (some 0) none none false := by
  intro h
  exact absurd (congrArg CheckRecord.timestamp h) (by decide)

/-- **C9, amended** `_compute_record_for_row` is deterministic up to its
ambient inputs: two runs on identical row/signals/configuration inputs agree
on every field except `timestamp` (the wall clock) and `debug` (the cached
fetch trace); with the ambient clock and cache also equal, the records are
identical. -/
theorem decide_deterministic_modulo_env (e1 e2 : Env) (tv : TolVars) (r : ℤ)
    (row : RowCells) (country : String) (fx buyFail customsFixedYen : ℚ)
    (totalIn : Option ℚ) (days : Option ℤ) (item ship : Option ℤ)
    (shipped used : Option Bool) (nfo : Bool) :
    (compute_record_for_row e1 tv r row country fx buyFail customsFixedYen
        totalIn days item ship shipped used nfo).country =
      (compute_record_for_row e2 tv r row country fx buyFail customsFixedYen
        totalIn days item ship shipped used nfo).country ∧
    (compute_record_for_row e1 tv r row country fx buyFail customsFixedYen
        totalIn days item ship shipped used nfo).excel_row =
      (compute_record_for_row e2 tv r row country fx buyFail customsFixedYen
        totalIn days item ship shipped used nfo).excel_row ∧
    (compute_record_for_row e1 tv r row country fx buyFail customsFixedYen
        totalIn days item ship shipped used nfo).asin =
      (compute_record_for_row e2 tv r row country fx buyFail customsFixedYen
        totalIn days item ship shipped used nfo).asin ∧
    (compute_record_for_row e1 tv r row country fx buyFail customsFixedYen
        totalIn days item ship shipped used nfo).sku =
      (compute_record_for_row e2 tv r row country fx buyFail customsFixedYen
        totalIn days item ship shipped used nfo).sku ∧
    (compute_record_for_row e1 tv r row country fx buyFail customsFixedYen
        totalIn days item ship shipped used nfo).listing_price_foreign =
      (compute_record_for_row e2 tv r row country fx buyFail customsFixedYen
        totalIn days item ship shipped used nfo).listing_price_foreign ∧
    (compute_record_for_row e1 tv r row country fx buyFail customsFixedYen
        totalIn days item ship shipped used nfo).amazon_item_yen =
      (compute_record_for_row e2 tv r row country fx buyFail customsFixedYen
        totalIn days item ship shipped used nfo).amazon_item_yen ∧
    (compute_record_for_row e1 tv r row country fx buyFail customsFixedYen
        totalIn days item ship shipped used nfo).amazon_page_ship_yen =
      (compute_record_for_row e2 tv r row country fx buyFail customsFixedYen
        totalIn days item ship shipped used nfo).amazon_page_ship_yen ∧
    (compute_record_for_row e1 tv r row country fx buyFail customsFixedYen
        totalIn days item ship shipped used nfo).amazon_total_yen =
      (compute_record_for_row e2 tv r row country fx buyFail customsFixedYen
        totalIn days item ship shipped used nfo).amazon_total_yen ∧
    (compute_record_for_row e1 tv r row country fx buyFail customsFixedYen
        totalIn days item ship shipped used nfo).shipped_by_amazon =
      (compute_record_for_row e2 tv r row country fx buyFail customsFixedYen
        totalIn days item ship shipped used nfo).shipped_by_amazon ∧
    (compute_record_for_row e1 tv r row country fx buyFail customsFixedYen
        totalIn days item ship shipped used nfo).is_used =
      (compute_record_for_row e2 tv r row country fx buyFail customsFixedYen
        totalIn days item ship shipped used nfo).is_used ∧
    (compute_record_for_row e1 tv r row country fx buyFail customsFixedYen
        totalIn days item ship shipped used nfo).no_featured_offer =
      (compute_record_for_row e2 tv r row country fx buyFail customsFixedYen
        totalIn days item ship shipped used nfo).no_featured_offer ∧
    (compute_record_for_row e1 tv r row country fx buyFail customsFixedYen
        totalIn days item ship shipped used nfo).sku_ship_yen =
      (compute_record_for_row e2 tv r row country fx buyFail customsFixedYen
        totalIn days item ship shipped used nfo).sku_ship_yen ∧
    (compute_record_for_row e1 tv r row country fx buyFail customsFixedYen
        totalIn days item ship shipped used nfo).mx_small_yen =
      (compute_record_for_row e2 tv r row country fx buyFail customsFixedYen
        totalIn days item ship shipped used nfo).mx_small_yen ∧
    (compute_record_for_row e1 tv r row country fx buyFail customsFixedYen
        totalIn days item ship shipped used nfo).mx_small_ship_foreign =
      (compute_record_for_row e2 tv r row country fx buyFail customsFixedYen
        totalIn days item ship shipped used nfo).mx_small_ship_foreign ∧
    (compute_record_for_row e1 tv r row country fx buyFail customsFixedYen
        totalIn days item ship shipped used nfo).customs_fixed_yen =
      (compute_record_for_row e2 tv r row country fx buyFail customsFixedYen
        totalIn days item ship shipped used nfo).customs_fixed_yen ∧
    (compute_record_for_row e1 tv r row country fx buyFail customsFixedYen
        totalIn days item ship shipped used nfo).base_yen =
      (compute_record_for_row e2 tv r row country fx buyFail customsFixedYen
        totalIn days item ship shipped used nfo).base_yen ∧
    (compute_record_for_row e1 tv r row country fx buyFail customsFixedYen
        totalIn days item ship shipped used nfo).fx_jpy_per_unit =
      (compute_record_for_row e2 tv r row country fx buyFail customsFixedYen
        totalIn days item ship shipped used nfo).fx_jpy_per_unit ∧
    (compute_record_for_row e1 tv r row country fx buyFail customsFixedYen
        totalIn days item ship shipped used nfo).multiplier =
      (compute_record_for_row e2 tv r row country fx buyFail customsFixedYen
        totalIn days item ship shipped used nfo).multiplier ∧
    (compute_record_for_row e1 tv r row country fx buyFail customsFixedYen
        totalIn days item ship shipped used nfo).expected_price_foreign =
      (compute_record_for_row e2 tv r row country fx buyFail customsFixedYen
        totalIn days item ship shipped used nfo).expected_price_foreign ∧
    (compute_record_for_row e1 tv r row country fx buyFail customsFixedYen
        totalIn days item ship shipped used nfo).diff_foreign =
      (compute_record_for_row e2 tv r row country fx buyFail customsFixedYen
        totalIn days item ship shipped used nfo).diff_foreign ∧
    (compute_record_for_row e1 tv r row country fx buyFail customsFixedYen
        totalIn days item ship shipped used nfo).tol_yen =
      (compute_record_for_row e2 tv r row country fx buyFail customsFixedYen
        totalIn days item ship shipped used nfo).tol_yen ∧
    (compute_record_for_row e1 tv r row country fx buyFail customsFixedYen
        totalIn days item ship shipped used nfo).tol_foreign =
      (compute_record_for_row e2 tv r row country fx buyFail customsFixedYen
        totalIn days item ship shipped used nfo).tol_foreign ∧
    (compute_record_for_row e1 tv r row country fx buyFail customsFixedYen
        totalIn days item ship shipped used nfo).tol_price_digits =
      (compute_record_for_row e2 tv r row country fx buyFail customsFixedYen
        totalIn days item ship shipped used nfo).tol_price_digits ∧
    (compute_record_for_row e1 tv r row country fx buyFail customsFixedYen
        totalIn days item ship shipped used nfo).sku_cost_yen =
      (compute_record_for_row e2 tv r row country fx buyFail customsFixedYen
        totalIn days item ship shipped used nfo).sku_cost_yen ∧
    (compute_record_for_row e1 tv r row country fx buyFail customsFixedYen
        totalIn days item ship shipped used nfo).buy_diff_yen =
      (compute_record_for_row e2 tv r row country fx buyFail customsFixedYen
        totalIn days item ship shipped used nfo).buy_diff_yen ∧
    (compute_record_for_row e1 tv r row country fx buyFail customsFixedYen
        totalIn days item ship shipped used nfo).delivery_days =
      (compute_record_for_row e2 tv r row country fx buyFail customsFixedYen
        totalIn days item ship shipped used nfo).delivery_days ∧
    (compute_record_for_row e1 tv r row country fx buyFail customsFixedYen
        totalIn days item ship shipped used nfo).decision =
      (compute_record_for_row e2 tv r row country fx buyFail customsFixedYen
        totalIn days item ship shipped used nfo).decision ∧
    (compute_record_for_row e1 tv r row country fx buyFail customsFixedYen
        totalIn days item ship shipped used nfo).reason =
      (compute_record_for_row e2 tv r row country fx buyFail customsFixedYen
        totalIn days item ship shipped used nfo).reason :=
  ⟨rfl, rfl, rfl, rfl, rfl, rfl, rfl, rfl, rfl, rfl, rfl, rfl, rfl, rfl,
   rfl, rfl, rfl, rfl, rfl, rfl, rfl, rfl, rfl, rfl, rfl, rfl, rfl, rfl⟩

set_option maxHeartbeats 1000000 in
/-- Reaching the `AMAZON_TOTAL_EMPTY` branch of the precedence chain forces a
resolved tolerance, an unresolvable total, and a present shipping value. -/
theorem dc_total_empty_conditions
    (country : String) (fx multiplier buyFail customsFixedYen
      skuShipTotalYen mxSmallYen : ℚ) (listingPrice skuCost : Option ℚ)
    (amazonTotalYenInput : Option ℚ) (amazonItemYen amazonPageShipYen : Option ℤ)
    (deliveryDaysInt : Option ℤ) (deliveryOverride : Bool)
    (tolYen tolForeign : Option ℚ) (isUsed : Option Bool)
    (noFeaturedOffer : Bool) (pre : PreCalc)
    (h : (decisionChain country fx multiplier buyFail customsFixedYen
      skuShipTotalYen mxSmallYen listingPrice skuCost amazonTotalYenInput
      amazonItemYen amazonPageShipYen deliveryDaysInt deliveryOverride
      tolYen tolForeign isUsed noFeaturedOffer pre).reason = "AMAZON_TOTAL_EMPTY") :
    tolYen ≠ none ∧
    totalYenOf amazonTotalYenInput amazonItemYen amazonPageShipYen = none ∧
    amazonPageShipYen ≠ none := by
  unfold decisionChain at h
  repeat' split at h
  all_goals simp only [apply_ite DecisionData.reason] at h
  all_goals (repeat' split at h)
  all_goals simp_all

set_option maxHeartbeats 1000000 in
/-- **C10** The `AMAZON_TOTAL_EMPTY` branch is unreachable: whenever the
shipping and tolerance-resolution checks have passed, a tolerance item price
existed (fetched item price or supplied total), which together with the
present shipping value makes the marketplace total resolvable — so no record
ever carries this reason. -/
theorem amazon_total_empty_unreachable (env : Env) (tv : TolVars) (r : ℤ)
    (row : RowCells) (country : String) (fx buyFail customsFixedYen : ℚ)
    (totalIn : Option ℚ) (days : Option ℤ) (item ship : Option ℤ)
    (shipped used : Option Bool) (nfo : Bool) :
    (compute_record_for_row env tv r row country fx buyFail customsFixedYen
      totalIn days item ship shipped used nfo).reason ≠ "AMAZON_TOTAL_EMPTY" := by
  intro h
  obtain ⟨h1, h2, h3⟩ :=
    dc_total_empty_conditions _ _ _ _ _ _ _ _ _ _ _ _ _ _ _ _ _ _ _ h
  rcases ship with _ | s
  · exact h3 rfl
  · rcases item with _ | i <;> rcases totalIn with _ | t <;>
      simp_all [totalYenOf, tolItemYenOf, tol_yen_from_item_price]

/-- Witness for C10: the theorem applied at one concrete input (whose reason
is in fact `SHIP_NOT_FOUND`). -/
theorem amazon_total_empty_unreachable_witness :
    (compute_record_for_row ⟨"t", "", ""⟩
      ⟨"10", "10", "10", "10", "10", "10", "10", "10", "10"⟩ 2
      ⟨"housou-1500-8", "10", "B000000000"⟩ "US" 100 500 150 none none none
      none none none false).reason ≠ "AMAZON_TOTAL_EMPTY" :=
  amazon_total_empty_unreachable ⟨"t", "", ""⟩
    ⟨"10", "10", "10", "10", "10", "10", "10", "10", "10"⟩ 2
    ⟨"housou-1500-8", "10", "B000000000"⟩ "US" 100 500 150 none none none
    none none none false

/-! ### Guard lemmas for the precedence chain -/

theorem cr_used_reason (env : Env) (tv : TolVars) (r : ℤ) (row : RowCells)
    (country : String) (fx buyFail customsFixedYen : ℚ) (totalIn : Option ℚ)
    (days : Option ℤ) (item ship : Option ℤ) (shipped used : Option Bool)
    (nfo : Bool) (hu : used = some true) :
    (compute_record_for_row env tv r row country fx buyFail customsFixedYen
      totalIn days item ship shipped used nfo).decision = "DELETE" ∧
    (compute_record_for_row env tv r row country fx buyFail customsFixedYen
      totalIn days item ship shipped used nfo).reason = "USED_ITEM" := by
  constructor <;> simp [compute_record_for_row, decisionChain, hu]

theorem cr_nfo_reason (env : Env) (tv : TolVars) (r : ℤ) (row : RowCells)
    (country : String) (fx buyFail customsFixedYen : ℚ) (totalIn : Option ℚ)
    (days : Option ℤ) (item ship : Option ℤ) (shipped used : Option Bool)
    (nfo : Bool) (h1 : used ≠ some true) (h2 : nfo = true) :
    (compute_record_for_row env tv r row country fx buyFail customsFixedYen
      totalIn days item ship shipped used nfo).decision = "DELETE" ∧
    (compute_record_for_row env tv r row country fx buyFail customsFixedYen
      totalIn days item ship shipped used nfo).reason = "NO_FEATURED_OFFER" := by
  constructor <;> simp [compute_record_for_row, decisionChain, h1, h2]

theorem cr_ship_reason (env : Env) (tv : TolVars) (r : ℤ) (row : RowCells)
    (country : String) (fx buyFail customsFixedYen : ℚ) (totalIn : Option ℚ)
    (days : Option ℤ) (item ship : Option ℤ) (shipped used : Option Bool)
    (nfo : Bool) (h1 : used ≠ some true) (h2 : nfo = false) (h3 : ship = none) :
    (compute_record_for_row env tv r row country fx buyFail customsFixedYen
      totalIn days item ship shipped used nfo).decision = "DELETE" ∧
    (compute_record_for_row env tv r row country fx buyFail customsFixedYen
      totalIn days item ship shipped used nfo).reason = "SHIP_NOT_FOUND" := by
  constructor <;> simp [compute_record_for_row, decisionChain, h1, h2, h3]

theorem cr_delivery_empty_reason (env : Env) (tv : TolVars) (r : ℤ)
    (row : RowCells) (country : String) (fx buyFail customsFixedYen : ℚ)
    (totalIn : Option ℚ) (days : Option ℤ) (item ship : Option ℤ)
    (shipped used : Option Bool) (nfo : Bool) (s : ℤ)
    (h1 : used ≠ some true) (h2 : nfo = false) (h3 : ship = some s)
    (h4 : shipped.getD false = false) (h5 : days = none) :
    (compute_record_for_row env tv r row country fx buyFail customsFixedYen
      totalIn days item ship shipped used nfo).decision = "DELETE" ∧
    (compute_record_for_row env tv r row country fx buyFail customsFixedYen
      totalIn days item ship shipped used nfo).reason = "DELIVERY_EMPTY" := by
  constructor <;> simp [compute_record_for_row, decisionChain, h1, h2, h3, h4, h5]

theorem cr_delivery_4p_reason (env : Env) (tv : TolVars) (r : ℤ)
    (row : RowCells) (country : String) (fx buyFail customsFixedYen : ℚ)
    (totalIn : Option ℚ) (days : Option ℤ) (item ship : Option ℤ)
    (shipped used : Option Bool) (nfo : Bool) (s d : ℤ)
    (h1 : used ≠ some true) (h2 : nfo = false) (h3 : ship = some s)
    (h4 : shipped.getD false = false) (h5 : days = some d) (h6 : 4 ≤ d) :
    (compute_record_for_row env tv r row country fx buyFail customsFixedYen
      totalIn days item ship shipped used nfo).decision = "DELETE" ∧
    (compute_record_for_row env tv r row country fx buyFail customsFixedYen
      totalIn days item ship shipped used nfo).reason = "DELIVERY_4P" := by
  constructor <;> simp [compute_record_for_row, decisionChain, h1, h2, h3, h4, h5, h6]

set_option maxHeartbeats 1000000 in
/-- A `DELIVERY_EMPTY` or `DELIVERY_4P` verdict can only arise when the
delivery override (shipped-by-marketplace) is off. -/
theorem dc_delivery_reason_inv
    (country : String) (fx multiplier buyFail customsFixedYen
      skuShipTotalYen mxSmallYen : ℚ) (listingPrice skuCost : Option ℚ)
    (amazonTotalYenInput : Option ℚ) (amazonItemYen amazonPageShipYen : Option ℤ)
    (deliveryDaysInt : Option ℤ) (deliveryOverride : Bool)
    (tolYen tolForeign : Option ℚ) (isUsed : Option Bool)
    (noFeaturedOffer : Bool) (pre : PreCalc)
    (h : (decisionChain country fx multiplier buyFail customsFixedYen
      skuShipTotalYen mxSmallYen listingPrice skuCost amazonTotalYenInput
      amazonItemYen amazonPageShipYen deliveryDaysInt deliveryOverride
      tolYen tolForeign isUsed noFeaturedOffer pre).reason = "DELIVERY_EMPTY" ∨
      (decisionChain country fx multiplier buyFail customsFixedYen
      skuShipTotalYen mxSmallYen listingPrice skuCost amazonTotalYenInput
      amazonItemYen amazonPageShipYen deliveryDaysInt deliveryOverride
      tolYen tolForeign isUsed noFeaturedOffer pre).reason = "DELIVERY_4P") :
    deliveryOverride = false := by
  unfold decisionChain at h
  repeat' split at h
  all_goals simp only [apply_ite DecisionData.reason] at h
  all_goals (repeat' split at h)
  all_goals simp_all

/-- **C1** The precedence chain applies its checks in order with first match
winning: whenever `isUsed` is true the verdict is DELETE/USED_ITEM (even with
`noPrimaryOffer` set and any price difference), and no lower-precedence
reason is produced while a higher-precedence condition holds:
NO_FEATURED_OFFER entails the used check passed; SHIP_NOT_FOUND entails the
used and offer checks passed; PRICE_DIFF entails the used, offer and shipping
checks passed and the delivery check passed or was exempted. -/
theorem used_item_precedence (env : Env) (tv : TolVars) (r : ℤ)
    (row : RowCells) (country : String) (fx buyFail customsFixedYen : ℚ)
    (totalIn : Option ℚ) (days : Option ℤ) (item ship : Option ℤ)
    (shipped used : Option Bool) (nfo : Bool) :
    (used = some true →
      (compute_record_for_row env tv r row country fx buyFail customsFixedYen
        totalIn days item ship shipped used nfo).decision = "DELETE" ∧
      (compute_record_for_row env tv r row country fx buyFail customsFixedYen
        totalIn days item ship shipped used nfo).reason = "USED_ITEM") ∧
    ((compute_record_for_row env tv r row country fx buyFail customsFixedYen
        totalIn days item ship shipped used nfo).reason = "NO_FEATURED_OFFER" →
      used ≠ some true) ∧
    ((compute_record_for_row env tv r row country fx buyFail customsFixedYen
        totalIn days item ship shipped used nfo).reason = "SHIP_NOT_FOUND" →
      used ≠ some true ∧ nfo = false) ∧
    ((compute_record_for_row env tv r row country fx buyFail customsFixedYen
        totalIn days item ship shipped used nfo).reason = "PRICE_DIFF" →
      used ≠ some true ∧ nfo = false ∧ ship ≠ none ∧
      (shipped.getD false = true ∨ ∃ d, days = some d ∧ d < 4)) := by
  refine ⟨?_, ?_, ?_, ?_⟩
  · intro hu
    exact cr_used_reason env tv r row country fx buyFail customsFixedYen
      totalIn days item ship shipped used nfo hu
  · intro h hu
    rw [(cr_used_reason env tv r row country fx buyFail customsFixedYen
      totalIn days item ship shipped used nfo hu).2] at h
    exact absurd h (by decide)
  · intro h
    by_cases hu : used = some true
    · rw [(cr_used_reason env tv r row country fx buyFail customsFixedYen
        totalIn days item ship shipped used nfo hu).2] at h
      exact absurd h (by decide)
    refine ⟨hu, ?_⟩
    by_cases hn : nfo = true
    · rw [(cr_nfo_reason env tv r row country fx buyFail customsFixedYen
        totalIn days item ship shipped used nfo hu hn).2] at h
      exact absurd h (by decide)
    · simpa using hn
  · intro h
    by_cases hu : used = some true
    · rw [(cr_used_reason env tv r row country fx buyFail customsFixedYen
        totalIn days item ship shipped used nfo hu).2] at h
      exact absurd h (by decide)
    by_cases hn : nfo = true
    · rw [(cr_nfo_reason env tv r row country fx buyFail customsFixedYen
        totalIn days item ship shipped used nfo hu hn).2] at h
      exact absurd h (by decide)
    have hn' : nfo = false := by simpa using hn
    refine ⟨hu, hn', ?_, ?_⟩
    · intro hs
      rw [(cr_ship_reason env tv r row country fx buyFail customsFixedYen
        totalIn days item ship shipped used nfo hu hn' hs).2] at h
      exact absurd h (by decide)
    · by_cases hov : shipped.getD false = true
      · exact Or.inl hov
      have hov' : shipped.getD false = false := by simpa using hov
      rcases ship with _ | s
      · rw [(cr_ship_reason env tv r row country fx buyFail customsFixedYen
          totalIn days item none shipped used nfo hu hn' rfl).2] at h
        exact absurd h (by decide)
      rcases days with _ | d
      · rw [(cr_delivery_empty_reason env tv r row country fx buyFail
          customsFixedYen totalIn none item (some s) shipped used nfo s hu hn'
          rfl hov' rfl).2] at h
        exact absurd h (by decide)
      by_cases h4d : 4 ≤ d
      · rw [(cr_delivery_4p_reason env tv r row country fx buyFail
          customsFixedYen totalIn (some d) item (some s) shipped used nfo s d
          hu hn' rfl hov' rfl h4d).2] at h
        exact absurd h (by decide)
      · exact Or.inr ⟨d, rfl, by omega⟩

/-- Witness for C1: a used item with `noPrimaryOffer` also set and a huge
listing-price difference still resolves to DELETE/USED_ITEM. -/
theorem used_item_precedence_witness :
    (compute_record_for_row ⟨"t", "", ""⟩
      ⟨"10", "10", "10", "10", "10", "10", "10", "10", "10"⟩ 2
      ⟨"housou-1500-8", "99999", "B000000000"⟩ "US" 100 500 150 (some 1000)
      (some 1) (some 1000) (some 0) none (some true) true).decision =
      "DELETE" ∧
    (compute_record_for_row ⟨"t", "", ""⟩
      ⟨"10", "10", "10", "10", "10", "10", "10", "10", "10"⟩ 2
      ⟨"housou-1500-8", "99999", "B000000000"⟩ "US" 100 500 150 (some 1000)
      (some 1) (some 1000) (some 0) none (some true) true).reason =
      "USED_ITEM" :=
  (used_item_precedence ⟨"t", "", ""⟩
    ⟨"10", "10", "10", "10", "10", "10", "10", "10", "10"⟩ 2
    ⟨"housou-1500-8", "99999", "B000000000"⟩ "US" 100 500 150 (some 1000)
    (some 1) (some 1000) (some 0) none (some true) true).1 rfl

set_option maxHeartbeats 1000000 in
/-- **C2** In the arithmetic stage (no higher-precedence DELETE, tolerance
resolved, total resolved, listing price present), a known identifier cost
with `buyBaseYen < cost` forces KEEP/AMZ_BELOW_COST, whatever the foreign
difference or the purchase-mismatch threshold. -/
theorem amz_below_cost_override (env : Env) (tv : TolVars) (r : ℤ)
    (row : RowCells) (country : String) (fx buyFail customsFixedYen : ℚ)
    (totalIn : Option ℚ) (days : Option ℤ) (item ship : Option ℤ)
    (shipped used : Option Bool) (nfo : Bool)
    (hu : used ≠ some true) (hn : nfo = false) (s : ℤ) (hs : ship = some s)
    (hdl : shipped.getD false = true ∨ ∃ d, days = some d ∧ d < 4)
    (ty : ℚ)
    (hty : (tol_yen_from_item_price tv country
      (tolItemYenOf item totalIn ship)).1 = some ty)
    (hfx : 0 < fx)
    (t : ℚ) (ht : totalYenOf totalIn item ship = some t)
    (lp : ℚ) (hlp : try_float row.price = some lp)
    (c : ℚ) (hc : parse_sku_cost_yen (clean_text row.sku) = some c)
    (hbc : buyBaseYenOf t item s < c) :
    (compute_record_for_row env tv r row country fx buyFail customsFixedYen
      totalIn days item ship shipped used nfo).decision = "KEEP" ∧
    (compute_record_for_row env tv r row country fx buyFail customsFixedYen
      totalIn days item ship shipped used nfo).reason = "AMZ_BELOW_COST" := by
  subst hs hn
  rcases hdl with hov | ⟨d, hd, hlt⟩
  · constructor <;>
      simp [compute_record_for_row, decisionChain, hu, hov, hty, hfx, ht, hlp,
        hc, hbc]
  · subst hd
    have h4 : ¬ (4 ≤ d) := by omega
    constructor <;>
      simp [compute_record_for_row, decisionChain, hu, h4, hty, hfx, ht, hlp,
        hc, hbc]

unseal Rat.add Rat.mul Rat.sub Rat.inv Rat.ofScientific in
/-- Witness for C2: item price 1000 below SKU cost 1500 yields
KEEP/AMZ_BELOW_COST even though the listing price (10) is far from the
expected price and the mismatch threshold (100) is exceeded. -/
theorem amz_below_cost_override_witness :
    (compute_record_for_row ⟨"t", "", ""⟩
      ⟨"10", "10", "10", "10", "10", "10", "10", "10", "10"⟩ 2
      ⟨"housou-1500-8", "10", "B000000000"⟩ "US" 100 100 150 none (some 1)
      (some 1000) (some 0) none none false).decision = "KEEP" ∧
    (compute_record_for_row ⟨"t", "", ""⟩
      ⟨"10", "10", "10", "10", "10", "10", "10", "10", "10"⟩ 2
      ⟨"housou-1500-8", "10", "B000000000"⟩ "US" 100 100 150 none (some 1)
      (some 1000) (some 0) none none false).reason = "AMZ_BELOW_COST" :=
  amz_below_cost_override ⟨"t", "", ""⟩
    ⟨"10", "10", "10", "10", "10", "10", "10", "10", "10"⟩ 2
    ⟨"housou-1500-8", "10", "B000000000"⟩ "US" 100 100 150 none (some 1)
    (some 1000) (some 0) none none false (by decide) rfl 0 rfl
    (Or.inr ⟨1, rfl, by decide⟩) 10 (by decide) (by decide) 1000 (by decide)
    10 (by decide) 1500 (by decide) (by decide)

/-- **C3** The delivery check is skipped entirely when the
shipped-by-marketplace flag is true: such inputs never produce
DELIVERY_EMPTY or DELIVERY_4P; when the flag is not true and the earlier
checks pass, absent delivery days yield DELETE/DELIVERY_EMPTY and delivery
days ≥ 4 yield DELETE/DELIVERY_4P. -/
theorem delivery_check_exemption (env : Env) (tv : TolVars) (r : ℤ)
    (row : RowCells) (country : String) (fx buyFail customsFixedYen : ℚ)
    (totalIn : Option ℚ) (days : Option ℤ) (item ship : Option ℤ)
    (shipped used : Option Bool) (nfo : Bool) :
    (shipped = some true →
      (compute_record_for_row env tv r row country fx buyFail customsFixedYen
        totalIn days item ship shipped used nfo).reason ≠ "DELIVERY_EMPTY" ∧
      (compute_record_for_row env tv r row country fx buyFail customsFixedYen
        totalIn days item ship shipped used nfo).reason ≠ "DELIVERY_4P") ∧
    (shipped ≠ some true → used ≠ some true → nfo = false → ∀ s : ℤ,
      ship = some s →
      (days = none →
        (compute_record_for_row env tv r row country fx buyFail customsFixedYen
          totalIn days item ship shipped used nfo).decision = "DELETE" ∧
        (compute_record_for_row env tv r row country fx buyFail customsFixedYen
          totalIn days item ship shipped used nfo).reason = "DELIVERY_EMPTY") ∧
      (∀ d : ℤ, days = some d → 4 ≤ d →
        (compute_record_for_row env tv r row country fx buyFail customsFixedYen
          totalIn days item ship shipped used nfo).decision = "DELETE" ∧
        (compute_record_for_row env tv r row country fx buyFail customsFixedYen
          totalIn days item ship shipped used nfo).reason = "DELIVERY_4P")) := by
  constructor
  · intro hsh
    constructor <;> intro h
    · have hov := dc_delivery_reason_inv _ _ _ _ _ _ _ _ _ _ _ _ _ _ _ _ _ _ _
        (Or.inl h)
      rw [hsh] at hov
      simp at hov
    · have hov := dc_delivery_reason_inv _ _ _ _ _ _ _ _ _ _ _ _ _ _ _ _ _ _ _
        (Or.inr h)
      rw [hsh] at hov
      simp at hov
  · intro hsh hu hn s hs
    have hov : shipped.getD false = false := by
      rcases shipped with _ | (_ | _) <;> simp_all
    constructor
    · intro hd
      exact cr_delivery_empty_reason env tv r row country fx buyFail
        customsFixedYen totalIn days item ship shipped used nfo s hu hn hs hov hd
    · intro d hd h4
      exact cr_delivery_4p_reason env tv r row country fx buyFail
        customsFixedYen totalIn days item ship shipped used nfo s d hu hn hs hov
        hd h4

/-- Witness for C3: with the flag true and no delivery days the reason is not
DELIVERY_EMPTY; with the flag false and no delivery days it is. -/
theorem delivery_check_exemption_witness :
    ((compute_record_for_row ⟨"t", "", ""⟩
      ⟨"10", "10", "10", "10", "10", "10", "10", "10", "10"⟩ 2
      ⟨"housou-1500-8", "10", "B000000000"⟩ "US" 100 500 150 none none
      (some 1000) (some 0) (some true) none false).reason ≠
      "DELIVERY_EMPTY") ∧
    (compute_record_for_row ⟨"t", "", ""⟩
      ⟨"10", "10", "10", "10", "10", "10", "10", "10", "10"⟩ 2
      ⟨"housou-1500-8", "10", "B000000000"⟩ "US" 100 500 150 none none
      (some 1000) (some 0) (some false) none false).decision = "DELETE" ∧
    (compute_record_for_row ⟨"t", "", ""⟩
      ⟨"10", "10", "10", "10", "10", "10", "10", "10", "10"⟩ 2
      ⟨"housou-1500-8", "10", "B000000000"⟩ "US" 100 500 150 none none
      (some 1000) (some 0) (some false) none false).reason =
      "DELIVERY_EMPTY" :=
  ⟨((delivery_check_exemption ⟨"t", "", ""⟩
      ⟨"10", "10", "10", "10", "10", "10", "10", "10", "10"⟩ 2
      ⟨"housou-1500-8", "10", "B000000000"⟩ "US" 100 500 150 none none
      (some 1000) (some 0) (some true) none false).1 rfl).1,
   ((delivery_check_exemption ⟨"t", "", ""⟩
      ⟨"10", "10", "10", "10", "10", "10", "10", "10", "10"⟩ 2
      ⟨"housou-1500-8", "10", "B000000000"⟩ "US" 100 500 150 none none
      (some 1000) (some 0) (some false) none false).2 (by decide) (by decide)
      rfl 0 rfl).1 rfl⟩

set_option maxHeartbeats 2000000 in
/-- **C4** In the arithmetic stage the MX small-packet surcharge is applied
exactly when the country is MX and the SKU's small-packet value is positive:
the surcharge is `round(((buyBaseYen + smallPacketValueYen) × 1.35) / fx, 4)`
and the expected price is `round(expectedBase + surcharge, 2)`; otherwise the
expected price is `round(expectedBase, 2)` with no surcharge recorded. -/
theorem mx_small_packet_surcharge (env : Env) (tv : TolVars) (r : ℤ)
    (row : RowCells) (country : String) (fx buyFail customsFixedYen : ℚ)
    (totalIn : Option ℚ) (days : Option ℤ) (item ship : Option ℤ)
    (shipped used : Option Bool) (nfo : Bool)
    (hu : used ≠ some true) (hn : nfo = false) (s : ℤ) (hs : ship = some s)
    (hdl : shipped.getD false = true ∨ ∃ d, days = some d ∧ d < 4)
    (ty : ℚ)
    (hty : (tol_yen_from_item_price tv country
      (tolItemYenOf item totalIn ship)).1 = some ty)
    (hfx : 0 < fx)
    (t : ℚ) (ht : totalYenOf totalIn item ship = some t) :
    (country = "MX" →
      0 < (parse_sku_shipping_yen (clean_text row.sku) country).2 →
      (compute_record_for_row env tv r row country fx buyFail customsFixedYen
          totalIn days item ship shipped used nfo).mx_small_ship_foreign =
        some (roundTo 4 ((buyBaseYenOf t item s +
          (parse_sku_shipping_yen (clean_text row.sku) country).2) * 1.35 / fx)) ∧
      (compute_record_for_row env tv r row country fx buyFail customsFixedYen
          totalIn days item ship shipped used nfo).expected_price_foreign =
        some (roundTo 2
          ((t + (parse_sku_shipping_yen (clean_text row.sku) country).1 +
              customsFixedYen) / fx * countryMultiplier country +
            roundTo 4 ((buyBaseYenOf t item s +
              (parse_sku_shipping_yen (clean_text row.sku) country).2) * 1.35 /
              fx)))) ∧
    (¬(pyUpper country = "MX" ∧
        0 < (parse_sku_shipping_yen (clean_text row.sku) country).2) →
      (compute_record_for_row env tv r row country fx buyFail customsFixedYen
          totalIn days item ship shipped used nfo).mx_small_ship_foreign =
        none ∧
      (compute_record_for_row env tv r row country fx buyFail customsFixedYen
          totalIn days item ship shipped used nfo).expected_price_foreign =
        some (roundTo 2
          ((t + (parse_sku_shipping_yen (clean_text row.sku) country).1 +
              customsFixedYen) / fx * countryMultiplier country))) := by
  subst hs hn
  constructor
  · intro hmx hm
    subst hmx
    have hne : (parse_sku_shipping_yen (clean_text row.sku) "MX").2 ≠ 0 :=
      ne_of_gt hm
    rcases hlp : try_float row.price with _ | lp <;>
    rcases hcs : parse_sku_cost_yen (clean_text row.sku) with _ | c <;>
    (rcases hdl with hov | ⟨d, hd, hlt⟩;
     · constructor <;>
         simp [compute_record_for_row, decisionChain,
           apply_ite DecisionData.msf, apply_ite DecisionData.expected,
           hu, hov, hty, hfx, ht, hlp, hcs, hm, hne,
           show pyUpper "MX" = "MX" from by decide]
     · subst hd
       have h4 : ¬ (4 ≤ d) := by omega
       constructor <;>
         simp [compute_record_for_row, decisionChain,
           apply_ite DecisionData.msf, apply_ite DecisionData.expected,
           hu, h4, hty, hfx, ht, hlp, hcs, hm, hne,
           show pyUpper "MX" = "MX" from by decide])
  · intro hnomx
    have hcond : ¬(pyUpper country = "MX" ∧
        (parse_sku_shipping_yen (clean_text row.sku) country).2 ≠ 0 ∧
        0 < (parse_sku_shipping_yen (clean_text row.sku) country).2) :=
      fun hx => hnomx ⟨hx.1, hx.2.2⟩
    rcases hlp : try_float row.price with _ | lp <;>
    rcases hcs : parse_sku_cost_yen (clean_text row.sku) with _ | c <;>
    (rcases hdl with hov | ⟨d, hd, hlt⟩;
     · constructor <;>
         simp [compute_record_for_row, decisionChain, preCalcOf,
           apply_ite DecisionData.msf, apply_ite DecisionData.expected,
           hu, hov, hty, hfx, ht, hlp, hcs, hcond]
     · subst hd
       have h4 : ¬ (4 ≤ d) := by omega
       constructor <;>
         simp [compute_record_for_row, decisionChain, preCalcOf,
           apply_ite DecisionData.msf, apply_ite DecisionData.expected,
           hu, h4, hty, hfx, ht, hlp, hcs, hcond])

unseal Rat.add Rat.mul Rat.sub Rat.inv Rat.ofScientific in
/-- Witness for C4: `buyBaseYen = 1000`, `smallPacketValueYen = 28`,
`fxRate = 20` gives surcharge `round(((1000+28)×1.35)/20, 4) = 69.39`, and
the same identifier under country US records no surcharge. -/
theorem mx_small_packet_surcharge_witness :
    (compute_record_for_row ⟨"t", "", ""⟩
      ⟨"10", "10", "10", "10", "10", "10", "10", "10", "10"⟩ 2
      ⟨"housou-1500-8-28", "100", "B000000000"⟩ "MX" 20 500 150 none (some 1)
      (some 1000) (some 0) none none false).mx_small_ship_foreign =
      some (6939 / 100) ∧
    (compute_record_for_row ⟨"t", "", ""⟩
      ⟨"10", "10", "10", "10", "10", "10", "10", "10", "10"⟩ 2
      ⟨"housou-1500-8-28", "100", "B000000000"⟩ "US" 20 500 150 none (some 1)
      (some 1000) (some 0) none none false).mx_small_ship_foreign = none := by
  constructor
  · have h := (mx_small_packet_surcharge ⟨"t", "", ""⟩
      ⟨"10", "10", "10", "10", "10", "10", "10", "10", "10"⟩ 2
      ⟨"housou-1500-8-28", "100", "B000000000"⟩ "MX" 20 500 150 none (some 1)
      (some 1000) (some 0) none none false (by decide) rfl 0 rfl
      (Or.inr ⟨1, rfl, by decide⟩) 10 (by decide) (by decide) 1000
      (by decide)).1 rfl (by decide)
    rw [h.1]
    decide
  · have h := (mx_small_packet_surcharge ⟨"t", "", ""⟩
      ⟨"10", "10", "10", "10", "10", "10", "10", "10", "10"⟩ 2
      ⟨"housou-1500-8-28", "100", "B000000000"⟩ "US" 20 500 150 none (some 1)
      (some 1000) (some 0) none none false (by decide) rfl 0 rfl
      (Or.inr ⟨1, rfl, by decide⟩) 10 (by decide) (by decide) 1000
      (by decide)).2 (by decide)
    exact h.1

/-! ### Structure of fallback matches (pass 3) -/

theorem repsParse_fst_shape (l : List Char) :
    (repsParse l).1 = [] ∨ ∃ tl, (repsParse l).1 = ',' :: tl := by
  rcases l with _ | ⟨c, _ | ⟨d1, _ | ⟨d2, _ | ⟨d3, rest⟩⟩⟩⟩
  · simp [repsParse]
  · simp [repsParse]
  · simp [repsParse]
  · simp [repsParse]
  · simp only [repsParse]
    split
    · rename_i hg
      right
      have hc : c = ',' := by
        simp only [Bool.and_eq_true, decide_eq_true_eq] at hg
        exact hg.1.1.1
      exact ⟨_, by rw [hc]⟩
    · simp

/-- A successful match of pass 3 at one position is either comma-grouped
(contains the separator) or a plain digit run of length ≥ 3. -/
theorem tryMatchBare_shape (l run : List Char)
    (h : tryMatchBare l = some run) :
    ',' ∈ run ∨ (3 ≤ run.length ∧ run.all isDigitCh = true) := by
  have hdig : ∀ x ∈ l.takeWhile isDigitCh, isDigitCh x :=
    fun x hx => List.mem_takeWhile_imp hx
  simp only [tryMatchBare] at h
  split at h
  · exact absurd h (by simp)
  · split at h
    · rename_i hcon
      rcases repsParse_fst_shape (l.dropWhile isDigitCh) with hnil | ⟨tl, htl⟩
      · simp [hnil] at hcon
      · split at h
        · injection h with h2
          subst h2
          exact Or.inl (List.mem_append.mpr (Or.inr
            (by rw [htl]; exact List.mem_cons_self _ _)))
        · split at h
          · rename_i hlen
            injection h with h2
            subst h2
            refine Or.inl (List.mem_append.mpr (Or.inr ?_))
            obtain ⟨k, hk⟩ : ∃ k,
                (repsParse (l.dropWhile isDigitCh)).1.length - 4 = k + 1 :=
              ⟨(repsParse (l.dropWhile isDigitCh)).1.length - 5, by omega⟩
            rw [hk, htl, List.take_succ_cons]
            exact List.mem_cons_self _ _
          · split at h
            · rename_i hb
              injection h with h2
              subst h2
              simp only [Bool.and_eq_true, decide_eq_true_eq] at hb
              exact Or.inr ⟨hb.1, List.all_eq_true.mpr hdig⟩
            · exact absurd h (by simp)
    · split at h
      · rename_i hb
        injection h with h2
        subst h2
        simp only [Bool.and_eq_true, decide_eq_true_eq] at hb
        exact Or.inr ⟨hb.1, List.all_eq_true.mpr hdig⟩
      · exact absurd h (by simp)

theorem searchBare_shape (l : List Char) (b : Bool) (run : List Char)
    (h : searchBare b l = some run) :
    ',' ∈ run ∨ (3 ≤ run.length ∧ run.all isDigitCh = true) := by
  induction l generalizing b with
  | nil => simp [searchBare] at h
  | cons c rest ih =>
    unfold searchBare at h
    split at h
    · split at h
      · rename_i r htm
        injection h with h2
        subst h2
        exact tryMatchBare_shape _ _ htm
      · exact ih _ h
    · exact ih _ h

/-- **C6** `_first_yen_in_text` applies its patterns in strict priority —
currency-symbol number, then yen-word number, then the bare-number fallback —
and the fallback only accepts a group that has a thousands separator or is at
least 3 digits, with value in [100, 9999999]; in particular "1個" yields
null, "4,519円" yields 4519, and "¥100" yields 100. -/
theorem extract_yen_price_priority :
    first_yen_in_text "1個" = none ∧
    first_yen_in_text "4,519円" = some 4519 ∧
    first_yen_in_text "¥100" = some 100 ∧
    (∀ t ds, searchYenSym t.toList = some ds →
      first_yen_in_text t =
        (if groupVal ds ≤ 9999999 then some (groupVal ds) else none)) ∧
    (∀ t ds, searchYenSym t.toList = none → searchYenWord t.toList = some ds →
      first_yen_in_text t =
        (if groupVal ds ≤ 9999999 then some (groupVal ds) else none)) ∧
    (∀ t run, searchYenSym t.toList = none → searchYenWord t.toList = none →
      searchBare false t.toList = some run →
      (',' ∈ run ∨ (3 ≤ run.length ∧ run.all isDigitCh = true)) ∧
      first_yen_in_text t =
        (if 100 ≤ groupVal run ∧ groupVal run ≤ 9999999 then
          some (groupVal run) else none)) := by
  refine ⟨by decide, by decide, by decide, ?_, ?_, ?_⟩
  · intro t ds h
    simp only [String.toList] at h
    simp [first_yen_in_text, h]
  · intro t ds h1 h2
    simp only [String.toList] at h1 h2
    simp [first_yen_in_text, h1, h2]
  · intro t run h1 h2 h3
    refine ⟨searchBare_shape _ _ _ h3, ?_⟩
    simp only [String.toList] at h1 h2 h3
    simp [first_yen_in_text, h1, h2, h3]

/-- Witness for C6: the priority clauses applied to concrete inputs — the
symbol pass on "¥100" and the fallback pass on the bare "4,519". -/
theorem extract_yen_price_priority_witness :
    first_yen_in_text "¥100" =
      (if groupVal ['1', '0', '0'] ≤ 9999999 then
        some (groupVal ['1', '0', '0']) else none) ∧
    ((',' ∈ ['4', ',', '5', '1', '9'] ∨
      (3 ≤ (['4', ',', '5', '1', '9'] : List Char).length ∧
        (['4', ',', '5', '1', '9'] : List Char).all isDigitCh = true)) ∧
     first_yen_in_text "4,519" =
      (if 100 ≤ groupVal ['4', ',', '5', '1', '9'] ∧
          groupVal ['4', ',', '5', '1', '9'] ≤ 9999999 then
        some (groupVal ['4', ',', '5', '1', '9']) else none)) :=
  ⟨extract_yen_price_priority.2.2.2.1 "¥100" ['1', '0', '0'] (by decide),
   extract_yen_price_priority.2.2.2.2.2 "4,519" ['4', ',', '5', '1', '9']
     (by decide) (by decide) (by decide)⟩

/-- **C7** Batch behaviour at a failed fetch.  The sample-size half of the
claim holds: `run_random_batch` draws `min(requested, #ASIN-shaped rows)`
rows.  The SKIP half does not: on `fetch_ok = False` the code appends **no**
record — the `CheckRecord(...)` call of the failure branch omits the required
dataclass field `no_featured_offer`, so it raises `TypeError`, which the
surrounding `except Exception: pass` swallows (see
`batchSkipRecordConstruction`) — and then advances to the next sampled row. -/
theorem batch_fetch_failure_appends_no_record (target : ℕ)
    (asins : List String) (st : BatchState) (dbg : String)
    (evalRec : CheckRecord) (h : st.batchRunning = true) :
    batchSampleSize target asins = min target (eligibleRows asins).length ∧
    batchSampleSize target asins ≤ (eligibleRows asins).length ∧
    (batch_finalize_one st false dbg evalRec).records = st.records ∧
    (batch_finalize_one st false dbg evalRec).batchPos = st.batchPos + 1 := by
  refine ⟨rfl, Nat.min_le_right _ _, ?_, ?_⟩ <;>
    simp [batch_finalize_one, batchSkipRecordConstruction, h]

/-- Witness for C7: a concrete running batch state with an empty log gains no
record from a failed fetch, and the sample size for one valid ASIN row is
capped at 1. -/
theorem batch_fetch_failure_appends_no_record_witness :
    batchSampleSize 10 ["B000000000"] =
      min 10 (eligibleRows ["B000000000"]).length ∧
    batchSampleSize 10 ["B000000000"] ≤ (eligibleRows ["B000000000"]).length ∧
    (batch_finalize_one ⟨true, [], 0, ""⟩ false "timeout"
      ⟨"t", "US", 2, "A", "S", none, none, none, none, none, none, none, none,
        none, none, none, none, none, none, none, none, none, none, none,
        none, none, none, "KEEP", "OK", none⟩).records =
      (⟨true, [], 0, ""⟩ : BatchState).records ∧
    (batch_finalize_one ⟨true, [], 0, ""⟩ false "timeout"
      ⟨"t", "US", 2, "A", "S", none, none, none, none, none, none, none, none,
        none, none, none, none, none, none, none, none, none, none, none,
        none, none, none, "KEEP", "OK", none⟩).batchPos =
      (⟨true, [], 0, ""⟩ : BatchState).batchPos + 1 :=
  batch_fetch_failure_appends_no_record 10 ["B000000000"] ⟨true, [], 0, ""⟩
    "timeout"
    ⟨"t", "US", 2, "A", "S", none, none, none, none, none, none, none, none,
      none, none, none, none, none, none, none, none, none, none, none,
      none, none, none, "KEEP", "OK", none⟩ rfl

end ListingChecker
